import Mathlib

/-!
Verification of the `torso` slideshow-video generator (`torso.py` and `cli.py`)
against its natural-language specification.

The Python program is embedded shallowly:

* `random.randint(a, b)` consumes one raw draw `r : ℕ` and yields
  `a + r % (b - a + 1)`; it fails (as the Python call raises `ValueError:
  empty range for randrange`) when `b < a`.  This models the support of the
  uniform distribution exactly: the result ranges over `[a, b]`.
* `random.uniform(a, b)` is `a + (b - a) * u` where `u : ℚ` models the value
  of `random.random()`, subject to `0 ≤ u < 1` where a theorem needs it.
* Python's `//` is floor division (`Int.fdiv`); Python's `int(·)` truncates
  toward zero (`pyInt`).
* Fallible calls return `Except PyError _`.  An exception raised by the code
  (directly or from a library call) is an `Except.error`.
* Real-number samples (`0.5 * sin(2π f t)`) are modelled over `ℝ`; all
  control flow and counts stay over `ℤ`/`ℕ`/`ℚ` and are computable.
-/

namespace Torso

/-- Exceptions the pipeline can raise, each a `ValueError` in Python:
`emptyRange` from `random.randint` with an empty range,
`emptySequence` from `concatenate_videoclips`/`np.concatenate` on an empty
list (`max() arg is an empty sequence`), and `negativeSampleCount` from
`np.linspace` when the requested number of samples is negative. -/
inductive PyError where
  | emptyRange
  | emptySequence
  | negativeSampleCount
  deriving DecidableEq, Repr

/-- Audio sample rate constant `SAMPLE_RATE = 96000` from `torso.py`. -/
def SAMPLE_RATE : ℕ := 96000

/-- Model of Python's `random.randint(a, b)`: raises `ValueError` when
`b < a`, otherwise returns a value in `[a, b]` determined by the raw draw
`r`. -/
def randint (a b : ℤ) (r : ℕ) : Except PyError ℤ :=
  if b < a then .error .emptyRange else .ok (a + (r : ℤ) % (b - a + 1))

/-- Model of Python's `random.uniform(a, b) = a + (b - a) * random()`,
with `u` standing for the `random()` draw. -/
def uniform (a b u : ℚ) : ℚ := a + (b - a) * u

/-- Model of Python's `int(·)` on an exact rational: truncation toward
zero. -/
def pyInt (q : ℚ) : ℤ := if 0 ≤ q then ⌊q⌋ else -⌊-q⌋

/-- Model of the Python format specifier `{n:04d}` for a natural number:
the decimal representation left-padded with `'0'` to a minimum width of
four characters. -/
def format04 (n : ℕ) : String :=
  String.mk (List.replicate (4 - (Nat.repr n).length) '0') ++ Nat.repr n

/-- An axis-aligned rectangle: top-left corner `(x, y)`, extent
`(width, height)`; in `generate_slide` the drawn corner pair is
`(x, y, x + width, y + height)`. -/
structure Rect where
  x : ℤ
  y : ℤ
  width : ℤ
  height : ℤ
  deriving DecidableEq, Repr

/-- The observable result of rendering one slide: the two random rectangles
and the caption string.  The raster pixels, font shaping and text
measurement are opaque library calls and are not modelled. -/
structure Slide where
  blue : Rect
  red : Rect
  caption : String
  deriving DecidableEq, Repr

/-- Embedding of `generate_slide` from `torso.py` (lines 10–48).  The raw
random draws of the eight `random.randint` calls are supplied by `g`, in
source order.  The `fontname` argument is carried but the font library
calls are opaque and not modelled. -/
def generate_slide (slide_number : ℕ) (width height : ℤ) (fontname : String)
    (font_size : ℕ) (file_name : String) (g : ℕ → ℕ) : Except PyError Slide := do
  let _ := fontname
  let _ := font_size
  let blue_rect_width ← randint 50 (Int.fdiv width 2) (g 0)
  let blue_rect_height ← randint 50 (Int.fdiv height 2) (g 1)
  let blue_x ← randint 0 (width - blue_rect_width) (g 2)
  let blue_y ← randint 0 (height - blue_rect_height) (g 3)
  let red_rect_width ← randint 50 (Int.fdiv width 2) (g 4)
  let red_rect_height ← randint 50 (Int.fdiv height 2) (g 5)
  let red_x ← randint 0 (width - red_rect_width) (g 6)
  let red_y ← randint 0 (height - red_rect_height) (g 7)
  let text := file_name ++ " - slide " ++ format04 slide_number
  pure { blue := ⟨blue_x, blue_y, blue_rect_width, blue_rect_height⟩
         red := ⟨red_x, red_y, red_rect_width, red_rect_height⟩
         caption := text }

/-- Whether a fallible computation succeeded (no exception raised). -/
def isOkE {α : Type} (e : Except PyError α) : Bool :=
  match e with
  | .ok _ => true
  | .error _ => false

/-- Caption of a successfully rendered slide (empty string on error). -/
def captionD (e : Except PyError Slide) : String :=
  match e with
  | .ok s => s.caption
  | .error _ => ""

/-- Boolean test that a rectangle lies fully inside a `w × h` canvas. -/
def Rect.inBounds (r : Rect) (w h : ℤ) : Bool :=
  0 ≤ r.x && 0 ≤ r.y && r.x + r.width ≤ w && r.y + r.height ≤ h

/-- Boolean test that a slide was rendered and both of its rectangles lie
fully inside the `w × h` canvas (false on error). -/
def slideInBounds (e : Except PyError Slide) (w h : ℤ) : Bool :=
  match e with
  | .ok s => s.blue.inBounds w h && s.red.inBounds w h
  | .error _ => false

theorem randint_ok {a b : ℤ} (r : ℕ) (h : a ≤ b) :
    randint a b r = .ok (a + (r : ℤ) % (b - a + 1)) := by
  simp [randint, not_lt.2 h]

theorem randint_le {a b : ℤ} (r : ℕ) (h : a ≤ b) :
    a ≤ a + (r : ℤ) % (b - a + 1) ∧ a + (r : ℤ) % (b - a + 1) ≤ b := by
  have hm : (0 : ℤ) < b - a + 1 := by omega
  have h0 : (0 : ℤ) ≤ (r : ℤ) % (b - a + 1) := Int.emod_nonneg _ (by omega)
  have h1 : (r : ℤ) % (b - a + 1) < b - a + 1 := Int.emod_lt_of_pos _ hm
  omega

theorem randint_err {a b : ℤ} (r : ℕ) (h : b < a) :
    randint a b r = .error .emptyRange := by
  simp [randint, h]

/-- A synthesized stereo tone: the sampled frequency, the number of frames,
and the (left, right) sample pair at each frame index.  Frame `k` holds the
value `0.5 · sin(2π f t_k)` duplicated into both channels, with
`t_k = k · duration / n` as produced by
`np.linspace(0, duration, n, endpoint=False)`. -/
structure ToneBuffer where
  frequency : ℚ
  numFrames : ℕ
  sample : ℕ → ℝ × ℝ

/-- Embedding of `generate_tone` from `torso.py` (lines 53–61).  The
`random.uniform(min_freq, max_freq)` draw is `uniform min_freq max_freq u`;
`int(sample_rate * duration)` is `pyInt`; `np.linspace` raises when the
sample count is negative; `np.column_stack((tone, tone))` duplicates the
mono signal into both channels. -/
noncomputable def generate_tone (duration : ℚ) (sample_rate : ℕ)
    (min_freq max_freq : ℚ) (u : ℚ) : Except PyError ToneBuffer :=
  if pyInt ((sample_rate : ℚ) * duration) < 0 then .error .negativeSampleCount
  else
    .ok { frequency := uniform min_freq max_freq u
          numFrames := (pyInt ((sample_rate : ℚ) * duration)).toNat
          sample := fun k =>
            let t : ℚ := duration * (k : ℚ) / ((pyInt ((sample_rate : ℚ) * duration) : ℤ) : ℚ)
            let s : ℝ := (1 / 2) * Real.sin (2 * Real.pi * ((uniform min_freq max_freq u : ℚ) : ℝ) * (t : ℝ))
            (s, s) }

/-- Frame count of a successfully generated tone buffer. -/
def toneFrames (e : Except PyError ToneBuffer) : Option ℕ :=
  match e with
  | .ok b => some b.numFrames
  | .error _ => none

/-- Frequency of a successfully generated tone buffer (0 on error). -/
def toneFreqD (e : Except PyError ToneBuffer) : ℚ :=
  match e with
  | .ok b => b.frequency
  | .error _ => 0

/-- Proposition: the tone was generated and its left and right channels
agree at every frame index. -/
def toneStereoEq (e : Except PyError ToneBuffer) : Prop :=
  match e with
  | .ok b => ∀ k : ℕ, (b.sample k).1 = (b.sample k).2
  | .error _ => False

/-- The observable result of a completed pipeline run: the rendered slides,
the per-slide tone buffers, the frame count of the concatenated audio
buffer (`np.concatenate` along the sample axis), and the output file
written by `write_videofile`. -/
structure VideoResult where
  slides : List Slide
  tones : List ToneBuffer
  audioFrames : ℕ
  outputFile : String

/-- Embedding of the `for i in range(1, num_slides + 1)` loop of
`generate_video` (lines 138–147): slide `i` is rendered, then its tone is
generated, in that order; either failure aborts the run.  `g i` supplies
slide `i`'s eight raw integer draws and `u i` its `random.uniform` draw. -/
noncomputable def genLoop (width height : ℤ) (font : String) (font_size : ℕ)
    (displayed_file_name : String) (slide_duration : ℚ) (min_freq max_freq : ℚ)
    (g : ℕ → ℕ → ℕ) (u : ℕ → ℚ) :
    ℕ → ℕ → Except PyError (List Slide × List ToneBuffer)
  | _, 0 => pure ([], [])
  | i, Nat.succ count => do
    let s ← generate_slide i width height font font_size displayed_file_name (g i)
    let t ← generate_tone slide_duration SAMPLE_RATE min_freq max_freq (u i)
    let (ss, ts) ← genLoop width height font font_size displayed_file_name
        slide_duration min_freq max_freq g u (i + 1) count
    pure (s :: ss, t :: ts)

/-- Default `min_freq` of `generate_video`'s signature (line 88). -/
def generate_video_default_min_freq : ℚ := 400

/-- Default `max_freq` of `generate_video`'s signature (line 88). -/
def generate_video_default_max_freq : ℚ := 10000

/-- Embedding of `generate_video` from `torso.py` (lines 88–160).  After the
generation loop, `concatenate_videoclips(slide_clips, method="compose")`
raises `ValueError` (`max() arg is an empty sequence`) when the clip list is
empty; otherwise the audio segments are concatenated — the resulting buffer
length is the sum of the per-tone frame counts — and the output file is
written.  An `Except.error` result aborts the run before `write_videofile`,
so no output file is written in that case. -/
noncomputable def generate_video (width height : ℤ) (num_slides : ℕ)
    (slide_duration : ℚ) (font : String) (font_size : ℕ)
    (displayed_file_name : String) (min_freq max_freq : ℚ)
    (file_name : String) (fps : ℕ) (g : ℕ → ℕ → ℕ) (u : ℕ → ℚ) :
    Except PyError VideoResult := do
  let _ := fps
  let (slide_clips, audio_segments) ← genLoop width height font font_size
      displayed_file_name slide_duration min_freq max_freq g u 1 num_slides
  if slide_clips.isEmpty then
    .error .emptySequence
  else
    pure { slides := slide_clips
           tones := audio_segments
           audioFrames := (audio_segments.map ToneBuffer.numFrames).sum
           outputFile := file_name }

/-- Frame count of the concatenated audio buffer of a completed run
(0 on error). -/
def videoAudioFramesD (e : Except PyError VideoResult) : ℕ :=
  match e with
  | .ok v => v.audioFrames
  | .error _ => 0

/-- Per-slide tone frame counts of a completed run (empty on error). -/
def videoToneFramesD (e : Except PyError VideoResult) : List ℕ :=
  match e with
  | .ok v => v.tones.map ToneBuffer.numFrames
  | .error _ => []

/-- Sampled tone frequencies of a completed run (empty on error). -/
def videoToneFreqsD (e : Except PyError VideoResult) : List ℚ :=
  match e with
  | .ok v => v.tones.map ToneBuffer.frequency
  | .error _ => []

/-- Number of tone buffers produced by a completed run (0 on error). -/
def videoTonesCountD (e : Except PyError VideoResult) : ℕ :=
  match e with
  | .ok v => v.tones.length
  | .error _ => 0

/-- The command-line arguments of `cli.py`, with their `argparse` defaults
(lines 9–19 of `cli.py`). -/
structure CliArgs where
  width : ℤ := 640
  height : ℤ := 360
  num_slides : ℕ := 10
  slide_duration : ℚ := 1
  font : String := "arial.ttf"
  font_size : ℕ := 24
  displayed_file_name : String := "aqua.flv"
  min_freq : ℚ := 400
  max_freq : ℚ := 1000
  file_name : String := "torso_output.mp4"
  fps : ℕ := 25

/-- The `argparse` defaults of `cli.py`: the invocation with no flags. -/
def cliDefaults : CliArgs := {}

/-- Embedding of `main` from `cli.py`: the parsed arguments are passed
through to `torso.generate_video` unchanged. -/
noncomputable def cli_main (args : CliArgs) (g : ℕ → ℕ → ℕ) (u : ℕ → ℚ) :
    Except PyError VideoResult :=
  generate_video args.width args.height args.num_slides args.slide_duration
    args.font args.font_size args.displayed_file_name args.min_freq
    args.max_freq args.file_name args.fps g u

theorem bindE_ok {α β : Type} (v : α) (f : α → Except PyError β) :
    (Except.ok v >>= f : Except PyError β) = f v := rfl

theorem bindE_err {α β : Type} (e : PyError) (f : α → Except PyError β) :
    (Except.error e >>= f : Except PyError β) = .error e := rfl

theorem randint_cases {a b : ℤ} (r : ℕ) (h : a ≤ b) :
    ∃ v, randint a b r = .ok v ∧ a ≤ v ∧ v ≤ b :=
  ⟨a + (r : ℤ) % (b - a + 1), randint_ok r h, randint_le r h⟩

theorem generate_slide_ok (n : ℕ) (w h : ℤ) (fname : String) (fs : ℕ)
    (file : String) (g : ℕ → ℕ) (hw : 100 ≤ w) (hh : 100 ≤ h) :
    ∃ s : Slide, generate_slide n w h fname fs file g = .ok s ∧
      s.caption = file ++ " - slide " ++ format04 n ∧
      (0 ≤ s.blue.x ∧ 0 ≤ s.blue.y ∧
        s.blue.x + s.blue.width ≤ w ∧ s.blue.y + s.blue.height ≤ h) ∧
      (0 ≤ s.red.x ∧ 0 ≤ s.red.y ∧
        s.red.x + s.red.width ≤ w ∧ s.red.y + s.red.height ≤ h) := by
  have hwd : Int.fdiv w 2 = w / 2 := Int.fdiv_eq_ediv w (by norm_num)
  have hhd : Int.fdiv h 2 = h / 2 := Int.fdiv_eq_ediv h (by norm_num)
  have hw2 : (50 : ℤ) ≤ Int.fdiv w 2 := by omega
  have hh2 : (50 : ℤ) ≤ Int.fdiv h 2 := by omega
  obtain ⟨bw, ebw, hbw1, hbw2⟩ := randint_cases (g 0) hw2
  obtain ⟨bh, ebh, hbh1, hbh2⟩ := randint_cases (g 1) hh2
  obtain ⟨bx, ebx, hbx1, hbx2⟩ := randint_cases (g 2) (show (0 : ℤ) ≤ w - bw by omega)
  obtain ⟨by', eby, hby1, hby2⟩ := randint_cases (g 3) (show (0 : ℤ) ≤ h - bh by omega)
  obtain ⟨rw', erw, hrw1, hrw2⟩ := randint_cases (g 4) hw2
  obtain ⟨rh', erh, hrh1, hrh2⟩ := randint_cases (g 5) hh2
  obtain ⟨rx, erx, hrx1, hrx2⟩ := randint_cases (g 6) (show (0 : ℤ) ≤ w - rw' by omega)
  obtain ⟨ry, ery, hry1, hry2⟩ := randint_cases (g 7) (show (0 : ℤ) ≤ h - rh' by omega)
  refine ⟨⟨⟨bx, by', bw, bh⟩, ⟨rx, ry, rw', rh'⟩,
      file ++ " - slide " ++ format04 n⟩, ?_, rfl, ?_, ?_⟩
  · simp only [generate_slide, ebw, ebh, ebx, eby, erw, erh, erx, ery, bindE_ok]
    rfl
  · exact ⟨hbx1, hby1, show bx + bw ≤ w by omega, show by' + bh ≤ h by omega⟩
  · exact ⟨hrx1, hry1, show rx + rw' ≤ w by omega, show ry + rh' ≤ h by omega⟩

theorem generate_tone_ok (d : ℚ) (R : ℕ) (a b u : ℚ) (hd : 0 ≤ d) :
    ∃ tb : ToneBuffer, generate_tone d R a b u = .ok tb ∧
      tb.frequency = uniform a b u ∧
      tb.numFrames = (⌊(R : ℚ) * d⌋).toNat ∧
      ∀ k, (tb.sample k).1 = (tb.sample k).2 := by
  have h0 : (0 : ℚ) ≤ (R : ℚ) * d := mul_nonneg (by positivity) hd
  have hpy : pyInt ((R : ℚ) * d) = ⌊(R : ℚ) * d⌋ := if_pos h0
  have hnn : ¬ (pyInt ((R : ℚ) * d) < 0) := by
    rw [hpy]
    exact not_lt.2 (Int.floor_nonneg.2 h0)
  unfold generate_tone
  rw [if_neg hnn]
  exact ⟨_, rfl, rfl, congrArg Int.toNat hpy, fun k => rfl⟩

theorem genLoop_ok (w h : ℤ) (f : String) (fs : ℕ) (df : String) (d a b : ℚ)
    (g : ℕ → ℕ → ℕ) (u : ℕ → ℚ) (hw : 100 ≤ w) (hh : 100 ≤ h) (hd : 0 ≤ d) :
    ∀ (count i : ℕ), ∃ ss ts,
      genLoop w h f fs df d a b g u i count = .ok (ss, ts) ∧
      ss.length = count ∧ ts.length = count ∧
      ts.map ToneBuffer.numFrames =
        List.replicate count (⌊(SAMPLE_RATE : ℚ) * d⌋).toNat ∧
      (∀ tb ∈ ts, ∃ j, tb.frequency = uniform a b (u j)) := by
  intro count
  induction count with
  | zero =>
    intro i
    exact ⟨[], [], rfl, rfl, rfl, rfl, by simp⟩
  | succ m ih =>
    intro i
    obtain ⟨s, es, -, -, -⟩ := generate_slide_ok i w h f fs df (g i) hw hh
    obtain ⟨tb, et, hfreq, hframes, -⟩ := generate_tone_ok d SAMPLE_RATE a b (u i) hd
    obtain ⟨ss, ts, el, hs, ht, hmap, hfr⟩ := ih (i + 1)
    refine ⟨s :: ss, tb :: ts, ?_, by simp [hs], by simp [ht], ?_, ?_⟩
    · simp only [genLoop, es, et, el, bindE_ok]
      rfl
    · simp only [List.map_cons, hmap, hframes, List.replicate_succ]
    · intro tb' htb'
      rcases List.mem_cons.1 htb' with h1 | h1
      · exact ⟨i, h1 ▸ hfreq⟩
      · exact hfr tb' h1

theorem generate_video_ok (w h : ℤ) (k : ℕ) (d : ℚ) (f : String) (fs : ℕ)
    (df : String) (a b : ℚ) (out : String) (fps : ℕ) (g : ℕ → ℕ → ℕ)
    (u : ℕ → ℚ) (hw : 100 ≤ w) (hh : 100 ≤ h) (hd : 0 ≤ d) (hk : 0 < k) :
    ∃ v : VideoResult, generate_video w h k d f fs df a b out fps g u = .ok v ∧
      v.slides.length = k ∧ v.tones.length = k ∧
      v.tones.map ToneBuffer.numFrames =
        List.replicate k (⌊(SAMPLE_RATE : ℚ) * d⌋).toNat ∧
      v.audioFrames = k * (⌊(SAMPLE_RATE : ℚ) * d⌋).toNat ∧
      (∀ tb ∈ v.tones, ∃ j, tb.frequency = uniform a b (u j)) ∧
      v.outputFile = out := by
  obtain ⟨ss, ts, el, hs, ht, hmap, hfr⟩ :=
    genLoop_ok w h f fs df d a b g u hw hh hd k 1
  have hne : ss.isEmpty = false := by
    cases ss with
    | nil => simp at hs; omega
    | cons x xs => rfl
  refine ⟨{ slides := ss, tones := ts,
            audioFrames := (ts.map ToneBuffer.numFrames).sum,
            outputFile := out }, ?_, hs, ht, hmap, ?_, hfr, rfl⟩
  · simp only [generate_video, el, bindE_ok, hne, Bool.false_eq_true, if_false]
    rfl
  · simp only [hmap, List.sum_replicate, smul_eq_mul]

/-- C1 (counterexample): at the valid ToneSpec `durationSeconds = 15/65536`,
`sampleRate = 96000` the product is `21.97265625`; the buffer has 21 frames
(`int(...)` truncates) while `round(sampleRate × durationSeconds) = 22`, so
the claimed frame count `round(sampleRate × durationSeconds)` is wrong. -/
theorem tone_frame_count_not_round :
    toneFrames (generate_tone (15 / 65536) 96000 300 1000 0) = some 21 ∧
    round ((96000 : ℚ) * (15 / 65536)) = 22 := by
  constructor
  · obtain ⟨tb, et, -, hfr, -⟩ :=
      generate_tone_ok (15 / 65536) 96000 300 1000 0 (by norm_num)
    rw [et]
    simp only [toneFrames, hfr]
    norm_num
    rfl
  · rw [round_eq]
    norm_num

/-- C1 (amended): for every valid ToneSpec (`durationSeconds > 0`,
`sampleRate > 0`) the buffer returned by `generate_tone` has exactly
`⌊sampleRate × durationSeconds⌋` stereo frames — the product truncated
toward zero, as `int(sample_rate * duration)` computes — not the rounded
product. -/
theorem tone_frame_count_truncates (d : ℚ) (R : ℕ) (a b u : ℚ)
    (hd : 0 < d) (hR : 0 < R) :
    toneFrames (generate_tone d R a b u) = some (⌊(R : ℚ) * d⌋).toNat := by
  obtain ⟨tb, et, -, hfr, -⟩ := generate_tone_ok d R a b u hd.le
  rw [et]
  simp only [toneFrames, hfr]

/-- C1 (witness): the amended theorem at `durationSeconds = 1`,
`sampleRate = 96000` gives a 96000-frame buffer. -/
theorem tone_frame_count_truncates_witness :
    (0 : ℚ) < 1 ∧ 0 < 96000 ∧
    toneFrames (generate_tone 1 96000 300 1000 0) = some 96000 := by
  refine ⟨by norm_num, by norm_num, ?_⟩
  rw [tone_frame_count_truncates 1 96000 300 1000 0 (by norm_num) (by norm_num)]
  norm_num
  rfl

/-- C3: whenever `width // 2 < 50` or `height // 2 < 50` — in particular at
the boundary input `width = 50, height = 50` — the rectangle sizing range of
`random.randint(50, width // 2)` is empty and `generate_slide` fails with
the invalid-argument error (`ValueError: empty range`) rather than clamping
the rectangle size or returning an image. -/
theorem slide_small_canvas_invalid_argument (n : ℕ) (w h : ℤ) (fname : String)
    (fs : ℕ) (file : String) (g : ℕ → ℕ)
    (hsmall : Int.fdiv w 2 < 50 ∨ Int.fdiv h 2 < 50) :
    generate_slide n w h fname fs file g = .error .emptyRange := by
  by_cases hw : Int.fdiv w 2 < 50
  · simp only [generate_slide, randint_err (g 0) hw, bindE_err]
  · have hh : Int.fdiv h 2 < 50 := hsmall.resolve_left hw
    simp only [generate_slide, randint_ok (g 0) (not_lt.1 hw), bindE_ok,
      randint_err (g 1) hh, bindE_err]

/-- C3 (witness): at `width = 50, height = 50` (so `width // 2 = 25 < 50`)
the slide renderer fails with the empty-range error. -/
theorem slide_small_canvas_invalid_argument_witness :
    (Int.fdiv 50 2 < 50 ∨ Int.fdiv 50 2 < 50) ∧
    generate_slide 1 50 50 "arial.ttf" 24 "aqua.flv" (fun _ => 0) =
      .error .emptyRange :=
  ⟨Or.inl (by decide),
    slide_small_canvas_invalid_argument 1 50 50 "arial.ttf" 24 "aqua.flv"
      (fun _ => 0) (Or.inl (by decide))⟩

/-- C4: with `num_slides = 0` the generation loop produces no clips, the
call `concatenate_videoclips([])` fails with the invalid-argument error
(empty sequence), and the pipeline aborts before `write_videofile`, so no
output file is written. -/
theorem pipeline_zero_slides_fails (w h : ℤ) (d : ℚ) (f : String) (fs : ℕ)
    (df : String) (a b : ℚ) (out : String) (fps : ℕ) (g : ℕ → ℕ → ℕ)
    (u : ℕ → ℚ) :
    generate_video w h 0 d f fs df a b out fps g u = .error .emptySequence :=
  rfl

/-- C5: for every valid SlideSpec the rendered caption is exactly
`"<displayedFileName> - slide <index>"` with the index's decimal digits
left-padded with zeros to a minimum width of four characters. -/
theorem slide_caption_format (n : ℕ) (w h : ℤ) (fname : String) (fs : ℕ)
    (file : String) (g : ℕ → ℕ) (hw : 100 ≤ w) (hh : 100 ≤ h) :
    isOkE (generate_slide n w h fname fs file g) = true ∧
    captionD (generate_slide n w h fname fs file g) =
      file ++ " - slide " ++ format04 n ∧
    (format04 n).length = max 4 (Nat.repr n).length := by
  obtain ⟨s, es, hc, -, -⟩ := generate_slide_ok n w h fname fs file g hw hh
  refine ⟨by rw [es]; rfl, ?_, ?_⟩
  · rw [es]
    simpa only [captionD] using hc
  · have hlen : (format04 n).length =
        (4 - (Nat.repr n).length) + (Nat.repr n).length := by
      simp [format04, String.length_append]
    omega

/-- C5 (witness): slide index 7 on a 640×360 canvas captions
`"aqua.flv - slide 0007"`. -/
theorem slide_caption_format_witness :
    (100 : ℤ) ≤ 640 ∧
    captionD (generate_slide 7 640 360 "arial.ttf" 24 "aqua.flv" (fun _ => 0)) =
      "aqua.flv - slide 0007" := by
  refine ⟨by decide, ?_⟩
  rw [(slide_caption_format 7 640 360 "arial.ttf" 24 "aqua.flv" (fun _ => 0)
    (by decide) (by decide)).2.1]
  decide

/-- C6: for every valid SlideSpec (width ≥ 100 and height ≥ 100) both the
blue and the red rectangle lie fully within the canvas: `0 ≤ x`, `0 ≤ y`,
`x + rectWidth ≤ width` and `y + rectHeight ≤ height`, independently of the
random draws. -/
theorem slide_rects_within_canvas (n : ℕ) (w h : ℤ) (fname : String)
    (fs : ℕ) (file : String) (g : ℕ → ℕ) (hw : 100 ≤ w) (hh : 100 ≤ h) :
    slideInBounds (generate_slide n w h fname fs file g) w h = true := by
  obtain ⟨s, es, -, hb, hr⟩ := generate_slide_ok n w h fname fs file g hw hh
  rw [es]
  simp only [slideInBounds, Rect.inBounds, Bool.and_eq_true, decide_eq_true_eq]
  exact ⟨⟨⟨⟨hb.1, hb.2.1⟩, hb.2.2.1⟩, hb.2.2.2⟩,
    ⟨⟨⟨hr.1, hr.2.1⟩, hr.2.2.1⟩, hr.2.2.2⟩⟩

/-- C6 (witness): on the smallest valid canvas, 100×100, both rectangles of
a concrete run lie within bounds. -/
theorem slide_rects_within_canvas_witness :
    (100 : ℤ) ≤ 100 ∧
    slideInBounds (generate_slide 1 100 100 "arial.ttf" 24 "aqua.flv"
      (fun _ => 0)) 100 100 = true :=
  ⟨by decide, slide_rects_within_canvas 1 100 100 "arial.ttf" 24 "aqua.flv"
    (fun _ => 0) (by decide) (by decide)⟩

/-- C8: for every ToneSpec with `minFreqHz ≤ maxFreqHz` (and a `random()`
draw in `[0, 1)`), the sampled frequency lies in the closed interval
`[minFreqHz, maxFreqHz]`; in the degenerate case `minFreqHz = maxFreqHz`
the frequency is exactly that bound. -/
theorem tone_frequency_in_range (d : ℚ) (R : ℕ) (a b u : ℚ) (hab : a ≤ b)
    (hu0 : 0 ≤ u) (hu1 : u < 1) (hd : 0 < d) :
    isOkE (generate_tone d R a b u) = true ∧
    a ≤ toneFreqD (generate_tone d R a b u) ∧
    toneFreqD (generate_tone d R a b u) ≤ b ∧
    (a = b → toneFreqD (generate_tone d R a b u) = a) := by
  obtain ⟨tb, et, hf, -, -⟩ := generate_tone_ok d R a b u hd.le
  rw [et]
  refine ⟨rfl, ?_, ?_, ?_⟩
  · simp only [toneFreqD, hf, uniform]
    nlinarith
  · simp only [toneFreqD, hf, uniform]
    nlinarith
  · intro hab2
    subst hab2
    simp only [toneFreqD, hf, uniform]
    ring

/-- C8 (witness): the degenerate range `minFreqHz = maxFreqHz = 400`
produces the frequency exactly 400 Hz. -/
theorem tone_frequency_in_range_witness :
    (400 : ℚ) ≤ 400 ∧ isOkE (generate_tone 1 96000 400 400 0) = true ∧
    toneFreqD (generate_tone 1 96000 400 400 0) = 400 := by
  have H := tone_frequency_in_range 1 96000 400 400 0 (le_refl 400)
    (le_refl 0) (by norm_num) (by norm_num)
  exact ⟨le_refl 400, H.1, H.2.2.2 rfl⟩

/-- C9: for every valid ToneSpec, the buffer returned by `generate_tone`
carries the mono samples duplicated into both channels: left equals right
at every frame. -/
theorem tone_stereo_channels_equal (d : ℚ) (R : ℕ) (a b u : ℚ)
    (hab : a ≤ b) (hd : 0 < d) (hR : 0 < R) :
    toneStereoEq (generate_tone d R a b u) := by
  obtain ⟨tb, et, -, -, hs⟩ := generate_tone_ok d R a b u hd.le
  rw [et]
  exact hs

/-- C9 (witness): a concrete one-second 96 kHz tone has equal left and
right channels at every frame. -/
theorem tone_stereo_channels_equal_witness :
    toneStereoEq (generate_tone 1 96000 300 1000 0) :=
  tone_stereo_channels_equal 1 96000 300 1000 0 (by norm_num) (by norm_num)
    (by norm_num)

/-- C2 (counterexample): with `min_freq = 1000 > max_freq = 400` and
otherwise valid parameters the pipeline does not fail at all: the run
completes successfully and produces a tone buffer, contradicting the claim
that it fails with an invalid-argument error before any slide rendering. -/
theorem pipeline_accepts_reversed_freq_range :
    isOkE (generate_video 640 360 1 1 "arial.ttf" 24 "aqua.flv" 1000 400
      "torso_output.mp4" 25 (fun _ _ => 0) (fun _ => 0)) = true ∧
    videoTonesCountD (generate_video 640 360 1 1 "arial.ttf" 24 "aqua.flv"
      1000 400 "torso_output.mp4" 25 (fun _ _ => 0) (fun _ => 0)) = 1 := by
  obtain ⟨v, hv, -, ht, -, -, -, -⟩ := generate_video_ok 640 360 1 1
    "arial.ttf" 24 "aqua.flv" 1000 400 "torso_output.mp4" 25
    (fun _ _ => 0) (fun _ => 0) (by norm_num) (by norm_num) (by norm_num)
    (by norm_num)
  rw [hv]
  exact ⟨rfl, by simpa [videoTonesCountD] using ht⟩

/-- C2 (amended): the pipeline performs no configuration validation.  With
`min_freq > max_freq` and otherwise valid parameters it does not fail: it
renders every slide and produces one tone buffer per slide, each frequency
drawn from the reversed interval `[max_freq, min_freq]`. -/
theorem pipeline_no_validation_reversed_range (w h : ℤ) (k : ℕ) (d : ℚ)
    (f : String) (fs : ℕ) (df : String) (a b : ℚ) (out : String) (fps : ℕ)
    (g : ℕ → ℕ → ℕ) (u : ℕ → ℚ) (hw : 100 ≤ w) (hh : 100 ≤ h) (hd : 0 ≤ d)
    (hk : 0 < k) (hba : b < a) (hu : ∀ j, 0 ≤ u j ∧ u j < 1) :
    isOkE (generate_video w h k d f fs df a b out fps g u) = true ∧
    videoTonesCountD (generate_video w h k d f fs df a b out fps g u) = k ∧
    ∀ q ∈ videoToneFreqsD (generate_video w h k d f fs df a b out fps g u),
      b ≤ q ∧ q ≤ a := by
  obtain ⟨v, hv, -, ht, -, -, hfr, -⟩ :=
    generate_video_ok w h k d f fs df a b out fps g u hw hh hd hk
  rw [hv]
  refine ⟨rfl, by simpa [videoTonesCountD] using ht, ?_⟩
  intro q hq
  simp only [videoToneFreqsD] at hq
  obtain ⟨tb, htb, rfl⟩ := List.mem_map.1 hq
  obtain ⟨j, hj⟩ := hfr tb htb
  obtain ⟨h0, h1⟩ := hu j
  rw [hj]
  simp only [uniform]
  constructor <;> nlinarith

/-- C2 (witness): a concrete two-slide run with the reversed range
`min_freq = 1000, max_freq = 400` completes successfully. -/
theorem pipeline_no_validation_reversed_range_witness :
    (400 : ℚ) < 1000 ∧
    isOkE (generate_video 640 360 2 1 "arial.ttf" 24 "aqua.flv" 1000 400
      "reversed.mp4" 25 (fun _ _ => 0) (fun _ => 1 / 2)) = true :=
  ⟨by norm_num,
    (pipeline_no_validation_reversed_range 640 360 2 1 "arial.ttf" 24
      "aqua.flv" 1000 400 "reversed.mp4" 25 (fun _ _ => 0) (fun _ => 1 / 2)
      (by norm_num) (by norm_num) (by norm_num) (by norm_num) (by norm_num)
      (fun j => ⟨by norm_num, by norm_num⟩)).1⟩

/-- C7: a run with `k` slides of duration `d` produces per-slide tone
buffers of `⌊sampleRate·d⌋` frames each; the concatenated audio buffer's
frame count is the sum of the per-slide counts, and the total audio
duration `frames / sampleRate` equals the visual duration `k·d` to within
the per-slide sub-sample rounding (`k / sampleRate`). -/
theorem audio_frames_match_slides (w h : ℤ) (k : ℕ) (d : ℚ) (f : String)
    (fs : ℕ) (df : String) (a b : ℚ) (out : String) (fps : ℕ)
    (g : ℕ → ℕ → ℕ) (u : ℕ → ℚ) (hw : 100 ≤ w) (hh : 100 ≤ h) (hd : 0 < d)
    (hk : 0 < k) :
    videoToneFramesD (generate_video w h k d f fs df a b out fps g u) =
      List.replicate k (⌊(SAMPLE_RATE : ℚ) * d⌋).toNat ∧
    videoAudioFramesD (generate_video w h k d f fs df a b out fps g u) =
      (videoToneFramesD (generate_video w h k d f fs df a b out fps g u)).sum ∧
    (k : ℚ) * d - (k : ℚ) / SAMPLE_RATE <
      (videoAudioFramesD (generate_video w h k d f fs df a b out fps g u) : ℚ) /
        SAMPLE_RATE ∧
    (videoAudioFramesD (generate_video w h k d f fs df a b out fps g u) : ℚ) /
        SAMPLE_RATE ≤ (k : ℚ) * d := by
  obtain ⟨v, hv, -, -, hmap, hsum, -, -⟩ :=
    generate_video_ok w h k d f fs df a b out fps g u hw hh hd.le hk
  rw [hv]
  have hmapD : videoToneFramesD (Except.ok v) =
      List.replicate k (⌊(SAMPLE_RATE : ℚ) * d⌋).toNat := by
    simpa [videoToneFramesD] using hmap
  have hframesD : videoAudioFramesD (Except.ok v) =
      k * (⌊(SAMPLE_RATE : ℚ) * d⌋).toNat := by
    simpa [videoAudioFramesD] using hsum
  have hRq : (0 : ℚ) < (SAMPLE_RATE : ℚ) := by norm_num [SAMPLE_RATE]
  have hkq : (0 : ℚ) < (k : ℚ) := by exact_mod_cast hk
  have h0 : (0 : ℚ) ≤ (SAMPLE_RATE : ℚ) * d := by positivity
  have hFnn : 0 ≤ ⌊(SAMPLE_RATE : ℚ) * d⌋ := Int.floor_nonneg.2 h0
  have hcast : (((⌊(SAMPLE_RATE : ℚ) * d⌋).toNat : ℕ) : ℚ) =
      ((⌊(SAMPLE_RATE : ℚ) * d⌋ : ℤ) : ℚ) := by
    exact_mod_cast Int.toNat_of_nonneg hFnn
  have hle : ((⌊(SAMPLE_RATE : ℚ) * d⌋ : ℤ) : ℚ) ≤ (SAMPLE_RATE : ℚ) * d :=
    Int.floor_le _
  have hgt : (SAMPLE_RATE : ℚ) * d - 1 < ((⌊(SAMPLE_RATE : ℚ) * d⌋ : ℤ) : ℚ) :=
    Int.sub_one_lt_floor _
  refine ⟨hmapD, ?_, ?_, ?_⟩
  · rw [hframesD, hmapD]
    simp [List.sum_replicate]
  · rw [hframesD, lt_div_iff₀ hRq, sub_mul, div_mul_cancel₀ _ hRq.ne']
    push_cast [hcast]
    nlinarith [mul_lt_mul_of_pos_left hgt hkq]
  · rw [hframesD, div_le_iff₀ hRq]
    push_cast [hcast]
    nlinarith [mul_le_mul_of_nonneg_left hle hkq.le]

/-- C7 (witness): two slides of one second each yield per-slide frame
counts `[96000, 96000]`, and the concatenated buffer frame count is their
sum. -/
theorem audio_frames_match_slides_witness :
    (0 : ℚ) < 1 ∧ 0 < 2 ∧
    videoToneFramesD (generate_video 640 360 2 1 "arial.ttf" 24 "aqua.flv"
      400 1000 "torso_output.mp4" 25 (fun _ _ => 0) (fun _ => 0)) =
      List.replicate 2 96000 ∧
    videoAudioFramesD (generate_video 640 360 2 1 "arial.ttf" 24 "aqua.flv"
      400 1000 "torso_output.mp4" 25 (fun _ _ => 0) (fun _ => 0)) =
      (videoToneFramesD (generate_video 640 360 2 1 "arial.ttf" 24 "aqua.flv"
        400 1000 "torso_output.mp4" 25 (fun _ _ => 0) (fun _ => 0))).sum := by
  have H := audio_frames_match_slides 640 360 2 1 "arial.ttf" 24 "aqua.flv"
    400 1000 "torso_output.mp4" 25 (fun _ _ => 0) (fun _ => 0)
    (by norm_num) (by norm_num) (by norm_num) (by norm_num)
  have hval : (⌊(SAMPLE_RATE : ℚ) * 1⌋).toNat = 96000 := by
    norm_num [SAMPLE_RATE]
    rfl
  refine ⟨by norm_num, by norm_num, ?_, H.2.1⟩
  rw [H.1, hval]

/-- C10: `generate_video`'s signature defaults are `min_freq = 400`,
`max_freq = 10000`, while the CLI wrapper's argparse defaults are
`min_freq = 400`, `max_freq = 1000`; under identical random draws
(`random() = 0.99`) the default direct invocation samples a 9904 Hz tone
while the default CLI invocation samples 994 Hz tones — the two entry
points draw frequencies from different ranges. -/
theorem default_frequency_ranges_differ :
    generate_video_default_min_freq = 400 ∧
    generate_video_default_max_freq = 10000 ∧
    cliDefaults.min_freq = 400 ∧ cliDefaults.max_freq = 1000 ∧
    generate_video_default_max_freq ≠ cliDefaults.max_freq ∧
    videoToneFreqsD (generate_video 640 360 1 1 "arial.ttf" 24 "aqua.flv"
      generate_video_default_min_freq generate_video_default_max_freq
      "torso_output.mp4" 25 (fun _ _ => 0) (fun _ => 99 / 100)) = [9904] ∧
    videoToneFreqsD (cli_main cliDefaults (fun _ _ => 0) (fun _ => 99 / 100)) =
      List.replicate 10 994 := by
  refine ⟨rfl, rfl, rfl, rfl,
    by norm_num [generate_video_default_max_freq, cliDefaults], ?_, ?_⟩
  · obtain ⟨v, hv, -, ht, -, -, hfr, -⟩ := generate_video_ok 640 360 1 1
      "arial.ttf" 24 "aqua.flv" generate_video_default_min_freq
      generate_video_default_max_freq "torso_output.mp4" 25 (fun _ _ => 0)
      (fun _ => 99 / 100) (by norm_num) (by norm_num) (by norm_num)
      (by norm_num)
    rw [hv]
    simp only [videoToneFreqsD]
    have hrep : v.tones.map ToneBuffer.frequency =
        List.replicate 1 (9904 : ℚ) := by
      refine List.eq_replicate_iff.2 ⟨by simp [ht], ?_⟩
      intro q hq
      obtain ⟨tb, htb, rfl⟩ := List.mem_map.1 hq
      obtain ⟨j, hj⟩ := hfr tb htb
      rw [hj]
      norm_num [uniform, generate_video_default_min_freq,
        generate_video_default_max_freq]
    rw [hrep]
    rfl
  · have hcli : cli_main cliDefaults (fun _ _ => 0) (fun _ => 99 / 100) =
        generate_video 640 360 10 1 "arial.ttf" 24 "aqua.flv" 400 1000
          "torso_output.mp4" 25 (fun _ _ => 0) (fun _ => 99 / 100) := rfl
    rw [hcli]
    obtain ⟨v, hv, -, ht, -, -, hfr, -⟩ := generate_video_ok 640 360 10 1
      "arial.ttf" 24 "aqua.flv" 400 1000 "torso_output.mp4" 25
      (fun _ _ => 0) (fun _ => 99 / 100) (by norm_num) (by norm_num)
      (by norm_num) (by norm_num)
    rw [hv]
    simp only [videoToneFreqsD]
    refine List.eq_replicate_iff.2 ⟨by simp [ht], ?_⟩
    intro q hq
    obtain ⟨tb, htb, rfl⟩ := List.mem_map.1 hq
    obtain ⟨j, hj⟩ := hfr tb htb
    rw [hj]
    norm_num [uniform]

end Torso
